import Mathlib

/-
Verification of src/init_s3.py.

The script reads four environment variables, constructs a boto3 S3 client
from three of them, issues a single create_bucket call whose Bucket argument
is str(os.getenv("S3_BUCKET_NAME")), and prints a confirmation line built by
an f-string that interpolates os.getenv("S3_BUCKET_NAME") again.

The embedding below models the environment as four optional strings, Python
runtime values as either a string or the None singleton, the external SDK and
backend as an oracle saying whether client construction and the creation call
succeed, and the whole script as a function from environment and oracle to an
event trace together with a process exit code (0 on success, 1 when an
unhandled exception terminates the interpreter).
-/

namespace InitS3

/-- A Python runtime value relevant to this script: a string, or the None
singleton that os.getenv returns for an unset variable. -/
inductive PyVal where
  | vstr (s : String)
  | vnone
  deriving DecidableEq, Repr

/-- The process environment: the four variables the script reads, each of
which may be unset. -/
structure Env where
  s3_endpoint : Option String
  s3_access_key_id : Option String
  s3_secret_access_key : Option String
  s3_bucket_name : Option String
  deriving DecidableEq, Repr

/-- os.getenv: the string value of the variable, or Python None when the
variable is unset (src/init_s3.py lines 5-7, 10, 12). -/
def getenvPy (v : Option String) : PyVal :=
  match v with
  | some s => PyVal.vstr s
  | none => PyVal.vnone

/-- The Python builtin str() on the values os.getenv can return: the identity
on strings, and the text "None" on the None singleton (line 10). -/
def pyStr (v : PyVal) : String :=
  match v with
  | PyVal.vstr s => s
  | PyVal.vnone => "None"

/-- f-string interpolation of a value (line 12): Python formats both str and
NoneType operands through str(), so a string prints as itself and None prints
as the text "None". Defined separately from pyStr because the two use sites
in the source compute the text independently. -/
def fstrFormat (v : PyVal) : String :=
  match v with
  | PyVal.vstr s => s
  | PyVal.vnone => "None"

/-- The keyword arguments passed to boto3.client (lines 3-8), exactly as the
source passes them: the service name literal and the three environment
lookups, unvalidated. -/
structure ClientConfig where
  service : String
  endpoint_url : PyVal
  aws_access_key_id : PyVal
  aws_secret_access_key : PyVal
  deriving DecidableEq, Repr

/-- The configuration the script assembles for boto3.client from the
environment (lines 3-8). -/
def clientConfigOf (env : Env) : ClientConfig :=
  { service := "s3"
  , endpoint_url := getenvPy env.s3_endpoint
  , aws_access_key_id := getenvPy env.s3_access_key_id
  , aws_secret_access_key := getenvPy env.s3_secret_access_key }

/-- The Bucket argument of the creation call (line 10):
str(os.getenv("S3_BUCKET_NAME")), always a Python string. -/
def bucketArg (env : Env) : PyVal :=
  PyVal.vstr (pyStr (getenvPy env.s3_bucket_name))

/-- The confirmation line the script prints on success (line 12): the
f-string Bucket ... created successfully with the second, independent
environment lookup interpolated. -/
def successMsg (env : Env) : String :=
  "Bucket " ++ fstrFormat (getenvPy env.s3_bucket_name) ++ " created successfully"

/-- The observable actions of the script, in program order: attempting client
construction with a configuration, invoking the creation call with a Bucket
argument, and printing a line to standard output. -/
inductive Event where
  | clientConstruct (cfg : ClientConfig)
  | createBucket (bucket : PyVal)
  | printLine (line : String)
  deriving DecidableEq, Repr

/-- The external SDK and storage backend, abstracted as an oracle: whether
boto3.client succeeds on a given configuration, and whether the creation call
succeeds on a given Bucket argument. The script itself never branches on
these outcomes; a false answer models an exception raised by the SDK. -/
structure Backend where
  clientOk : ClientConfig → Bool
  createOk : PyVal → Bool

/-- One execution of src/init_s3.py under a given environment and backend:
the trace of attempted actions and the process exit code. The script is a
straight-line module body, so an exception at any step aborts the rest and
the interpreter exits nonzero (modelled as 1); otherwise the three statements
run in order and the process exits 0. -/
def run (env : Env) (b : Backend) : List Event × Nat :=
  if b.clientOk (clientConfigOf env) then
    if b.createOk (bucketArg env) then
      ([Event.clientConstruct (clientConfigOf env)
       , Event.createBucket (bucketArg env)
       , Event.printLine (successMsg env)], 0)
    else
      ([Event.clientConstruct (clientConfigOf env)
       , Event.createBucket (bucketArg env)], 1)
  else
    ([Event.clientConstruct (clientConfigOf env)], 1)

/-- Number of creation calls in a trace. -/
def createCalls (tr : List Event) : Nat :=
  (tr.filter fun e =>
    match e with
    | Event.createBucket _ => true
    | _ => false).length

/-- Number of printed lines in a trace. -/
def printCalls (tr : List Event) : Nat :=
  (tr.filter fun e =>
    match e with
    | Event.printLine _ => true
    | _ => false).length

/-- Concrete environment with all four variables unset. -/
def envUnset : Env :=
  { s3_endpoint := none
  , s3_access_key_id := none
  , s3_secret_access_key := none
  , s3_bucket_name := none }

/-- Concrete environment with all four variables set. -/
def envNamed : Env :=
  { s3_endpoint := some "http://localhost:9000"
  , s3_access_key_id := some "AK"
  , s3_secret_access_key := some "SK"
  , s3_bucket_name := some "exit-debt" }

/-- Concrete environment agreeing with envNamed on the bucket name but
differing on endpoint and credentials. -/
def envNamed2 : Env :=
  { s3_endpoint := none
  , s3_access_key_id := some "OTHER"
  , s3_secret_access_key := none
  , s3_bucket_name := some "exit-debt" }

/-- Concrete environment whose bucket-name variable is set to the empty
string. -/
def envEmptyName : Env :=
  { s3_endpoint := some "http://localhost:9000"
  , s3_access_key_id := some "AK"
  , s3_secret_access_key := some "SK"
  , s3_bucket_name := some "" }

/-- Backend on which every operation succeeds. -/
def backendOk : Backend :=
  { clientOk := fun _ => true, createOk := fun _ => true }

/-- Backend on which client construction fails. -/
def backendDown : Backend :=
  { clientOk := fun _ => false, createOk := fun _ => true }

theorem run_trace_cases (env : Env) (b : Backend) :
    run env b = ([Event.clientConstruct (clientConfigOf env)], 1) ∨
    run env b = ([Event.clientConstruct (clientConfigOf env)
                 , Event.createBucket (bucketArg env)], 1) ∨
    run env b = ([Event.clientConstruct (clientConfigOf env)
                 , Event.createBucket (bucketArg env)
                 , Event.printLine (successMsg env)], 0) := by
  cases h1 : b.clientOk (clientConfigOf env) <;>
    cases h2 : b.createOk (bucketArg env) <;>
      simp [run, h1, h2]

theorem create_mem_arg (env : Env) (b : Backend) (v : PyVal)
    (h : Event.createBucket v ∈ (run env b).1) : v = bucketArg env := by
  rcases run_trace_cases env b with hr | hr | hr <;> rw [hr] at h <;>
    simp at h <;> exact h

theorem print_mem_msg (env : Env) (b : Backend) (m : String)
    (h : Event.printLine m ∈ (run env b).1) : m = successMsg env := by
  rcases run_trace_cases env b with hr | hr | hr <;> rw [hr] at h <;>
    simp at h <;> exact h

theorem pyStr_eq_fstrFormat (w : PyVal) : pyStr w = fstrFormat w := by
  cases w <;> rfl

/-- Claim C1: whenever the creation call is invoked, its Bucket argument is
the literal string "None" if S3_BUCKET_NAME is unset, and exactly the string
value of S3_BUCKET_NAME if it is set. -/
theorem c1_bucket_name_from_env (env : Env) (b : Backend) (v : PyVal)
    (h : Event.createBucket v ∈ (run env b).1) :
    (env.s3_bucket_name = none → v = PyVal.vstr "None") ∧
    (∀ s : String, env.s3_bucket_name = some s → v = PyVal.vstr s) := by
  have hv : v = bucketArg env := create_mem_arg env b v h
  subst hv
  constructor
  · intro hn
    simp [bucketArg, getenvPy, pyStr, hn]
  · intro s hs
    simp [bucketArg, getenvPy, pyStr, hs]

/-- Witness for C1: with all variables unset and a successful backend, the
creation call is invoked and its argument is the string "None"; with the
bucket variable set to exit-debt it is the string exit-debt. -/
theorem c1_bucket_name_from_env_witness :
    PyVal.vstr "None" = PyVal.vstr "None" ∧
    PyVal.vstr "exit-debt" = PyVal.vstr "exit-debt" :=
  ⟨(c1_bucket_name_from_env envUnset backendOk (PyVal.vstr "None")
      (by decide)).1 rfl,
   (c1_bucket_name_from_env envNamed backendOk (PyVal.vstr "exit-debt")
      (by decide)).2 "exit-debt" rfl⟩

/-- Claim C2: the two use sites apply the identical fallback text, and in any
run the bucket name passed to the creation call and the bucket name embedded
in the printed confirmation are the same string. -/
theorem c2_both_sites_same_name (env : Env) (b : Backend) (v : PyVal)
    (m : String)
    (hc : Event.createBucket v ∈ (run env b).1)
    (hp : Event.printLine m ∈ (run env b).1) :
    (∀ w : PyVal, pyStr w = fstrFormat w) ∧
    ∃ s : String, v = PyVal.vstr s ∧
      m = "Bucket " ++ s ++ " created successfully" := by
  refine ⟨pyStr_eq_fstrFormat, ?_⟩
  have hv : v = bucketArg env := create_mem_arg env b v hc
  have hm : m = successMsg env := print_mem_msg env b m hp
  refine ⟨pyStr (getenvPy env.s3_bucket_name), ?_, ?_⟩
  · rw [hv]
    rfl
  · rw [hm]
    unfold successMsg
    rw [pyStr_eq_fstrFormat]

/-- Witness for C2: in the run with everything unset and a successful
backend, the creation call and the print both occur and both carry the
fallback text "None". -/
theorem c2_both_sites_same_name_witness :
    pyStr PyVal.vnone = fstrFormat PyVal.vnone :=
  (c2_both_sites_same_name envUnset backendOk (PyVal.vstr "None")
    "Bucket None created successfully" (by decide) (by decide)).1 PyVal.vnone

/-- Claim C3: when client construction and the creation call both succeed,
the trace is exactly the three statements in order with a single confirmation
line Bucket name created successfully, the exit code is 0, and the printed
name is the variable value, or "None" when unset. -/
theorem c3_success_trace (env : Env) (b : Backend)
    (hc : b.clientOk (clientConfigOf env) = true)
    (hb : b.createOk (bucketArg env) = true) :
    (run env b).1 = [Event.clientConstruct (clientConfigOf env)
                    , Event.createBucket (bucketArg env)
                    , Event.printLine (successMsg env)] ∧
    (run env b).2 = 0 ∧
    printCalls (run env b).1 = 1 ∧
    (env.s3_bucket_name = none →
      successMsg env = "Bucket None created successfully") ∧
    (∀ s : String, env.s3_bucket_name = some s →
      successMsg env = "Bucket " ++ s ++ " created successfully") := by
  refine ⟨?_, ?_, ?_, ?_, ?_⟩
  · simp [run, hc, hb]
  · simp [run, hc, hb]
  · simp [run, hc, hb, printCalls]
  · intro hn
    simp [successMsg, getenvPy, fstrFormat, hn]
  · intro s hs
    simp [successMsg, getenvPy, fstrFormat, hs]

/-- Witness for C3: on the fully set environment and a successful backend the
exit code is 0 and the confirmation line is Bucket exit-debt created
successfully. -/
theorem c3_success_trace_witness :
    (run envNamed backendOk).2 = 0 ∧
    successMsg envNamed = "Bucket " ++ "exit-debt" ++ " created successfully" :=
  ⟨(c3_success_trace envNamed backendOk rfl rfl).2.1,
   (c3_success_trace envNamed backendOk rfl rfl).2.2.2.2 "exit-debt" rfl⟩

/-- Claim C4: the exit code is 0 exactly when client construction and the
creation call both succeed, and a confirmation line is printed exactly when
both succeed; hence any exception yields a nonzero exit with no confirmation,
and the confirmation appears if and only if the single creation call
succeeded. -/
theorem c4_failure_propagates (env : Env) (b : Backend) :
    ((run env b).2 = 0 ↔
      (b.clientOk (clientConfigOf env) = true ∧
       b.createOk (bucketArg env) = true)) ∧
    ((∃ m : String, Event.printLine m ∈ (run env b).1) ↔
      (b.clientOk (clientConfigOf env) = true ∧
       b.createOk (bucketArg env) = true)) := by
  cases h1 : b.clientOk (clientConfigOf env) <;>
    cases h2 : b.createOk (bucketArg env) <;>
      simp [run, h1, h2]

/-- Witness for C4: with an unreachable backend the exit code of the run on
the fully set environment is not 0. -/
theorem c4_failure_propagates_witness :
    (run envNamed backendDown).2 = 0 ↔
      (backendDown.clientOk (clientConfigOf envNamed) = true ∧
       backendDown.createOk (bucketArg envNamed) = true) :=
  (c4_failure_propagates envNamed backendDown).1

/-- Claim C5: every execution performs at most one creation call: the trace
of any run contains at most one createBucket event. -/
theorem c5_at_most_one_create (env : Env) (b : Backend) :
    createCalls (run env b).1 ≤ 1 := by
  rcases run_trace_cases env b with hr | hr | hr <;> rw [hr]
  · exact Nat.zero_le 1
  · exact Nat.le_refl 1
  · exact Nat.le_refl 1

/-- Witness for C5 at a concrete environment and backend. -/
theorem c5_at_most_one_create_witness :
    createCalls (run envUnset backendDown).1 ≤ 1 :=
  c5_at_most_one_create envUnset backendDown

/-- Claim C6: every run starts by handing the client constructor the service
literal together with the three environment lookups exactly as found, an
absent variable being passed as the None value, with no presence or format
validation on any variable. -/
theorem c6_config_passthrough (env : Env) (b : Backend) :
    (run env b).1.head? = some (Event.clientConstruct
      { service := "s3"
      , endpoint_url := getenvPy env.s3_endpoint
      , aws_access_key_id := getenvPy env.s3_access_key_id
      , aws_secret_access_key := getenvPy env.s3_secret_access_key }) ∧
    (env.s3_endpoint = none →
      (clientConfigOf env).endpoint_url = PyVal.vnone) ∧
    (env.s3_access_key_id = none →
      (clientConfigOf env).aws_access_key_id = PyVal.vnone) ∧
    (env.s3_secret_access_key = none →
      (clientConfigOf env).aws_secret_access_key = PyVal.vnone) ∧
    (∀ u : String, env.s3_endpoint = some u →
      (clientConfigOf env).endpoint_url = PyVal.vstr u) ∧
    (∀ u : String, env.s3_access_key_id = some u →
      (clientConfigOf env).aws_access_key_id = PyVal.vstr u) ∧
    (∀ u : String, env.s3_secret_access_key = some u →
      (clientConfigOf env).aws_secret_access_key = PyVal.vstr u) := by
  refine ⟨?_, ?_, ?_, ?_, ?_, ?_, ?_⟩
  · rcases run_trace_cases env b with hr | hr | hr <;>
      rw [hr] <;> rfl
  · intro hn
    simp [clientConfigOf, getenvPy, hn]
  · intro hn
    simp [clientConfigOf, getenvPy, hn]
  · intro hn
    simp [clientConfigOf, getenvPy, hn]
  · intro u hu
    simp [clientConfigOf, getenvPy, hu]
  · intro u hu
    simp [clientConfigOf, getenvPy, hu]
  · intro u hu
    simp [clientConfigOf, getenvPy, hu]

/-- Witness for C6: an unset endpoint is passed through as the None value and
a set endpoint is passed through verbatim. -/
theorem c6_config_passthrough_witness :
    (clientConfigOf envUnset).endpoint_url = PyVal.vnone ∧
    (clientConfigOf envNamed).endpoint_url = PyVal.vstr "http://localhost:9000" :=
  ⟨(c6_config_passthrough envUnset backendOk).2.1 rfl,
   (c6_config_passthrough envNamed backendOk).2.2.2.2.1
     "http://localhost:9000" rfl⟩

/-- Claim C7: every trace is one of the three ordered stages of the single
linear sequence construct client, create bucket, print confirmation, and a
printed confirmation implies the creation call already appears in the trace:
the print never happens before the creation call. -/
theorem c7_linear_sequence (env : Env) (b : Backend) :
    ((run env b).1 = [Event.clientConstruct (clientConfigOf env)] ∨
     (run env b).1 = [Event.clientConstruct (clientConfigOf env)
                     , Event.createBucket (bucketArg env)] ∨
     (run env b).1 = [Event.clientConstruct (clientConfigOf env)
                     , Event.createBucket (bucketArg env)
                     , Event.printLine (successMsg env)]) ∧
    (∀ m : String, Event.printLine m ∈ (run env b).1 →
      Event.createBucket (bucketArg env) ∈ (run env b).1) := by
  constructor
  · rcases run_trace_cases env b with hr | hr | hr
    · exact Or.inl (by rw [hr])
    · exact Or.inr (Or.inl (by rw [hr]))
    · exact Or.inr (Or.inr (by rw [hr]))
  · intro m hm
    rcases run_trace_cases env b with hr | hr | hr <;> rw [hr] at hm ⊢
    · simp at hm
    · simp at hm
    · simp

/-- Witness for C7: in the successful run on the fully set environment the
creation call appears in the trace, obtained from the printed confirmation. -/
theorem c7_linear_sequence_witness :
    Event.createBucket (bucketArg envNamed) ∈ (run envNamed backendOk).1 :=
  (c7_linear_sequence envNamed backendOk).2
    ("Bucket " ++ "exit-debt" ++ " created successfully") (by decide)

/-- Claim C8: the Bucket argument of any invoked creation call is a Python
string, never the None value: the environment lookup may yield None but it is
coerced through str() before the call. -/
theorem c8_bucket_arg_is_string (env : Env) (b : Backend) (v : PyVal)
    (h : Event.createBucket v ∈ (run env b).1) :
    v ≠ PyVal.vnone ∧ ∃ s : String, v = PyVal.vstr s := by
  have hv : v = bucketArg env := create_mem_arg env b v h
  subst hv
  exact ⟨by simp [bucketArg], pyStr (getenvPy env.s3_bucket_name), rfl⟩

/-- Witness for C8: the argument of the creation call performed with every
variable unset is not the None value. -/
theorem c8_bucket_arg_is_string_witness :
    PyVal.vstr "None" ≠ PyVal.vnone :=
  (c8_bucket_arg_is_string envUnset backendOk (PyVal.vstr "None")
    (by decide)).1

/-- Claim C9: when S3_BUCKET_NAME is set to the empty string, the creation
call uses the empty string, not the fallback text "None", and the printed
confirmation is Bucket  created successfully with an empty name. -/
theorem c9_empty_name_not_fallback (env : Env) (b : Backend)
    (h : env.s3_bucket_name = some "") :
    (∀ v : PyVal, Event.createBucket v ∈ (run env b).1 →
      v = PyVal.vstr "") ∧
    (∀ m : String, Event.printLine m ∈ (run env b).1 →
      m = "Bucket " ++ "" ++ " created successfully") := by
  constructor
  · intro v hv
    have := create_mem_arg env b v hv
    rw [this]
    simp [bucketArg, getenvPy, pyStr, h]
  · intro m hm
    have := print_mem_msg env b m hm
    rw [this]
    simp [successMsg, getenvPy, fstrFormat, h]

/-- Witness for C9: the successful run on the environment whose bucket
variable is the empty string prints the confirmation with the empty name, and
the theorem applied to that print yields its text. -/
theorem c9_empty_name_not_fallback_witness :
    Event.printLine ("Bucket " ++ "" ++ " created successfully")
      ∈ (run envEmptyName backendOk).1 ∧
    ("Bucket " ++ "" ++ " created successfully") =
      "Bucket " ++ "" ++ " created successfully" :=
  ⟨by decide,
   (c9_empty_name_not_fallback envEmptyName backendOk rfl).2
     ("Bucket " ++ "" ++ " created successfully") (by decide)⟩

/-- Claim C10: two environments agreeing on S3_BUCKET_NAME have the same
success message, and any confirmation lines printed by runs under the two
environments, under any backends, are identical: endpoint and credentials
never influence the success output. -/
theorem c10_creds_no_influence (e1 e2 : Env) (b1 b2 : Backend)
    (h : e1.s3_bucket_name = e2.s3_bucket_name) :
    successMsg e1 = successMsg e2 ∧
    (∀ m1 m2 : String, Event.printLine m1 ∈ (run e1 b1).1 →
      Event.printLine m2 ∈ (run e2 b2).1 → m1 = m2) := by
  have hmsg : successMsg e1 = successMsg e2 := by
    simp [successMsg, h]
  refine ⟨hmsg, ?_⟩
  intro m1 m2 h1 h2
  rw [print_mem_msg e1 b1 m1 h1, print_mem_msg e2 b2 m2 h2, hmsg]

/-- Witness for C10: envNamed and envNamed2 differ on endpoint and both
credentials but agree on the bucket name, and their success messages are
identical. -/
theorem c10_creds_no_influence_witness :
    successMsg envNamed = successMsg envNamed2 :=
  (c10_creds_no_influence envNamed envNamed2 backendOk backendDown rfl).1

end InitS3
